import Mathlib

/-
Verification of the separator-injection (whitespace) combinator layer of
rust-bakery/nom-whitespace (src/whitespace.rs) against its specification.

The parser data model is the three-outcome result of nom 4:
`IResult<I, O> = Result<(I, O), Err>` with
`Err = Incomplete(Needed) | Error(Context) | Failure(Context)`.
Inputs are modelled as a list of characters together with a `complete`
flag distinguishing nom's "complete" input types (`CompleteStr`, where
running out of data is a plain error) from streaming slices (where it is
`Incomplete`).
-/

namespace NomWs

/-- An input cursor: the remaining unconsumed characters plus the
`complete` flag (nom's `AtEof`): `complete = true` models `CompleteStr`,
`complete = false` models a streaming byte/str slice. -/
structure Input where
  data : List Char
  complete : Bool
deriving DecidableEq

/-- The error kinds used by the combinators of src/whitespace.rs and by the
primitive parsers they invoke (nom's `ErrorKind` restricted to the kinds
this development needs). -/
inductive ErrorKind where
  | Tag
  | Eof
  | Permutation
  | Alt
  | Switch
  | Many0
  | Many1
  | SeparatedList
deriving DecidableEq

/-- Modelled from the spec: the error context of §3 ("identifies the
combinator kind that failed ... and the input position at failure,
optionally wrapping a nested cause").  `Code i k` is
`error_position!(i, k)`; `Node i k e` is `error_node_position!(i, k, e)`
(nom's verbose error chaining, whose body is not under src/). -/
inductive Context where
  | Code : Input → ErrorKind → Context
  | Node : Input → ErrorKind → Context → Context
deriving DecidableEq

/-- The non-success outcomes: `Incomplete n` is `Err::Incomplete(Needed::Size n)`,
`Error` is the recoverable failure, `Failure` the fatal one. -/
inductive PErr where
  | Incomplete : Nat → PErr
  | Error : Context → PErr
  | Failure : Context → PErr
deriving DecidableEq

/-- A parse result: either success with the advanced cursor and the value,
or one of the three error outcomes. -/
abbrev PResult (α : Type) := Except PErr (Input × α)

/-- A parser in the sense of §4.1: a pure function from a cursor to an outcome. -/
abbrev Parser (α : Type) := Input → PResult α

instance {α : Type} [DecidableEq α] : DecidableEq (PResult α) := fun a b =>
  match a, b with
  | .ok x, .ok y =>
    if h : x = y then .isTrue (by rw [h]) else .isFalse (by intro he; injection he; exact h (by assumption))
  | .ok _, .error _ => .isFalse (by intro he; injection he)
  | .error _, .ok _ => .isFalse (by intro he; injection he)
  | .error e, .error f =>
    if h : e = f then .isTrue (by rw [h]) else .isFalse (by intro he; injection he; exact h (by assumption))

/-- The separator character predicate of `sp` (src/whitespace.rs lines
834-837): space, tab, carriage return or newline. -/
def isWsChar (ch : Char) : Bool := ch == ' ' || ch == '\t' || ch == '\r' || ch == '\n'

/-- The separator parser `sp` (src/whitespace.rs lines 828-840):
`input.split_at_position(|c| !(c is whitespace))`.
Modelled from the spec: the body of nom's
`InputTakeAtPosition::split_at_position` is not under src/; it is modelled
per the streaming contract of §3 (streaming-only `Incomplete`) and the
in-repo tests (whitespace.rs lines 902, 1004-1008, 1040-1041 and the
comment at line 1116 "ws will return Incomplete on end of input"): on a
streaming input in which every character matches the separator predicate
(including the empty input) it returns `Incomplete`; on a complete input
it always succeeds, splitting at the first non-separator position. -/
def sp (i : Input) : PResult (List Char) :=
  if i.data.dropWhile isWsChar = [] ∧ i.complete = false then
    .error (.Incomplete 1)
  else
    .ok (⟨i.data.dropWhile isWsChar, i.complete⟩, i.data.takeWhile isWsChar)

/-- The result of nom's `Compare::compare` between the input and a tag. -/
inductive Cmp where
  | ok
  | incomplete
  | error
deriving DecidableEq

/-- Modelled from the spec: nom's `Compare::compare(input, tag)` (not under
src/), the comparison used by the fixed-string primitive: the first
differing character yields `error`; if none differs, the tag being
exhausted yields `ok` and the input being exhausted first yields
`incomplete`. -/
def cmpTag : List Char → List Char → Cmp
  | _, [] => .ok
  | [], _ :: _ => .incomplete
  | a :: as, b :: bs => if a = b then cmpTag as bs else .error

/-- Modelled from the spec: the fixed-string primitive `tag!` (§1's
"fixed-string match", supplied by the external combinator library, not
under src/), per the parser contract of §4.1 and the in-repo tests
(whitespace.rs lines 907-909, 1040-1041): success consumes the tag;
a mismatch within the available input is a recoverable error; running out
of input while still matching is `Incomplete` on a streaming input and a
recoverable error on a complete one. -/
def tagP (t : List Char) (i : Input) : PResult (List Char) :=
  match cmpTag i.data t with
  | .ok => .ok (⟨i.data.drop t.length, i.complete⟩, i.data.take t.length)
  | .incomplete =>
    if i.complete then .error (.Error (.Code i .Tag)) else .error (.Incomplete t.length)
  | .error => .error (.Error (.Code i .Tag))

/-- Modelled from the spec: the fixed-count primitive `take!` (§1's
"fixed-byte-count take", supplied by the external combinator library, not
under src/), per the parser contract of §4.1: it consumes exactly `n`
characters, reporting `Incomplete` (streaming) or an error (complete)
when fewer are available. -/
def takeP (n : Nat) (i : Input) : PResult (List Char) :=
  if i.data.length < n then
    if i.complete then .error (.Error (.Code i .Eof)) else .error (.Incomplete n)
  else
    .ok (⟨i.data.drop n, i.complete⟩, i.data.take n)

/-- `wrap_sep!` (src/whitespace.rs lines 92-112): run the separator; on
success run the wrapped parser on the remaining cursor; on a separator
error return that error (`Err::convert`, the identity here since the
error type is fixed). -/
def wrap_sep {σ α : Type} (sepP : Parser σ) (f : Parser α) : Parser α := fun i =>
  match sepP i with
  | .ok (i1, _) => f i1
  | .error e => .error e

/-- `tuple_sep!` at arity two (src/whitespace.rs lines 222-282): fold the
two sub-parsers left to right, each wrapped with `sep!` (that is,
`wrap_sep`), accumulating the outputs in declaration order and aborting
on the first non-success outcome. -/
def tuple_sep {σ α β : Type} (sepP : Parser σ) (p : Parser α) (q : Parser β) : Parser (α × β) := fun i =>
  match wrap_sep sepP p i with
  | .error e => .error e
  | .ok (i1, o1) =>
    match wrap_sep sepP q i1 with
    | .error e => .error e
    | .ok (i2, o2) => .ok (i2, (o1, o2))

/-- `ws!` (src/whitespace.rs lines 868-888), applied to the `sep!`-rewritten
body `g`: run `g`, then consume trailing separators with `sp`, returning
`g`'s output; any error of either stage is returned (converted) unchanged. -/
def ws {α : Type} (g : Parser α) : Parser α := fun i =>
  match g i with
  | .error e => .error e
  | .ok (i1, o) =>
    match sp i1 with
    | .error e => .error e
    | .ok (i2, _) => .ok (i2, o)

/-- `alt_sep!` at two branches (src/whitespace.rs lines 483-495 for the
leading branch and 542-558 for the last one): try each `sep!`-wrapped
branch on the same starting cursor; the first success wins; a recoverable
error moves to the next branch; any other error is returned at once; if
the last branch also fails recoverably, return a recoverable `Alt` error
positioned at the starting cursor. -/
def alt_sep {σ α : Type} (sepP : Parser σ) (p q : Parser α) : Parser α := fun i =>
  match wrap_sep sepP p i with
  | .ok r => .ok r
  | .error (.Error _) =>
    match wrap_sep sepP q i with
    | .ok r => .ok r
    | .error (.Error _) => .error (.Error (.Code i .Alt))
    | .error e => .error e
  | .error e => .error e

/-- `switch_sep!` (src/whitespace.rs lines 637-676): run the `sep!`-wrapped
selector; a recoverable or fatal selector error is re-tagged as a `Switch`
node at the starting cursor (`Incomplete` passes unchanged); on success,
find the first declared pattern equal to the produced value and run its
`sep!`-wrapped branch on the cursor the selector left, re-tagging its
recoverable/fatal errors the same way; if no pattern matches, return a
recoverable `Switch` error positioned at the starting cursor.  Patterns
are modelled as values compared for equality, which covers the literal
patterns the specification's scenarios use. -/
def switch_sep {σ κ α : Type} [DecidableEq κ] (sepP : Parser σ) (sel : Parser κ)
    (branches : List (κ × Parser α)) : Parser α := fun i =>
  match wrap_sep sepP sel i with
  | .error (.Error e) => .error (.Error (.Node i .Switch e))
  | .error (.Failure e) => .error (.Failure (.Node i .Switch e))
  | .error e => .error e
  | .ok (i1, o) =>
    match branches.find? (fun b => b.fst = o) with
    | none => .error (.Error (.Code i .Switch))
    | some (_, br) =>
      match wrap_sep sepP br i1 with
      | .error (.Error e) => .error (.Error (.Node i .Switch e))
      | .error (.Failure e) => .error (.Failure (.Node i .Switch e))
      | r => r

/-- The outcome of one full pass of `permutation_iterator_sep!` over the
three slots: a slot was filled (with the new cursor and slot array, upon
which the macro does `continue`), or the pass stalled carrying the final
`all_done` flag, or a non-recoverable error halted the whole operation
(the macro's `needed` + `break`). -/
inductive PassOut (α β γ : Type) where
  | filled : Input → Option α → Option β → Option γ → PassOut α β γ
  | stalled : Bool → PassOut α β γ
  | halted : PErr → PassOut α β γ

/-- Slot 2 of `permutation_iterator_sep!` (src/whitespace.rs lines 453-473,
the tail rule): if unfilled, attempt the `sep!`-wrapped sub-parser at the
current cursor; success fills the slot, a recoverable error clears
`all_done`, any other error halts. -/
def permSlot2 {σ α β γ : Type} (sepP : Parser σ) (p2 : Parser γ) (i : Input)
    (r0 : Option α) (r1 : Option β) (r2 : Option γ) (allDone : Bool) : PassOut α β γ :=
  match r2 with
  | some _ => .stalled allDone
  | none =>
    match wrap_sep sepP p2 i with
    | .ok (i', o) => .filled i' r0 r1 (some o)
    | .error (.Error _) => .stalled false
    | .error e => .halted e

/-- Slot 1 of `permutation_iterator_sep!` (src/whitespace.rs lines 420-441):
as slot 2, then fall through to slot 2 at the same cursor. -/
def permSlot1 {σ α β γ : Type} (sepP : Parser σ) (p1 : Parser β) (p2 : Parser γ) (i : Input)
    (r0 : Option α) (r1 : Option β) (r2 : Option γ) (allDone : Bool) : PassOut α β γ :=
  match r1 with
  | some _ => permSlot2 sepP p2 i r0 r1 r2 allDone
  | none =>
    match wrap_sep sepP p1 i with
    | .ok (i', o) => .filled i' r0 (some o) r2
    | .error (.Error _) => permSlot2 sepP p2 i r0 r1 r2 false
    | .error e => .halted e

/-- Slot 0 of `permutation_iterator_sep!` (src/whitespace.rs lines 420-441):
the pass starts with `all_done = true` and tries the slots in declaration
order at the shared current cursor. -/
def permSlot0 {σ α β γ : Type} (sepP : Parser σ) (p0 : Parser α) (p1 : Parser β) (p2 : Parser γ)
    (i : Input) (r0 : Option α) (r1 : Option β) (r2 : Option γ) : PassOut α β γ :=
  match r0 with
  | some _ => permSlot1 sepP p1 p2 i r0 r1 r2 true
  | none =>
    match wrap_sep sepP p0 i with
    | .ok (i', o) => .filled i' (some o) r1 r2
    | .error (.Error _) => permSlot1 sepP p1 p2 i r0 r1 r2 false
    | .error e => .halted e

/-- The loop of `permutation_sep!` (src/whitespace.rs lines 366-405): run
passes until one stalls or halts; on a stall, if all slots are filled
(`permutation_unwrap!` succeeds) return success at the current cursor;
otherwise return the recoverable error built at lines 385 and 393-401:
the permutation error at the current cursor (recorded when `all_done` is
false) nested under a permutation error at the original starting cursor.
`origI` is the original starting cursor `$i`.  The fuel only bounds the
number of passes; since every `filled` pass turns a `none` slot into
`some`, at most three passes fill and the fourth stalls, so the fuel `4`
used by `permutation_sep` is never exhausted (the fuel-0 value is
arbitrary). -/
def perm3Loop {σ α β γ : Type} (sepP : Parser σ) (p0 : Parser α) (p1 : Parser β) (p2 : Parser γ)
    (origI : Input) : Nat → Input → Option α → Option β → Option γ → PResult (α × β × γ)
  | 0, _, _, _, _ => .error (.Error (.Code origI .Permutation))
  | fuel + 1, i, r0, r1, r2 =>
    match permSlot0 sepP p0 p1 p2 i r0 r1 r2 with
    | .filled i' r0' r1' r2' => perm3Loop sepP p0 p1 p2 origI fuel i' r0' r1' r2'
    | .halted e => .error e
    | .stalled allDone =>
      match r0, r1, r2 with
      | some a, some b, some c => .ok (i, (a, b, c))
      | _, _, _ =>
        if allDone then .error (.Error (.Code origI .Permutation))
        else .error (.Error (.Node origI .Permutation (.Code i .Permutation)))

/-- `permutation_sep!` at three sub-parsers (src/whitespace.rs lines
366-405): all slots start unfilled and the pass loop starts at the
original cursor. -/
def permutation_sep {σ α β γ : Type} (sepP : Parser σ) (p0 : Parser α) (p1 : Parser β)
    (p2 : Parser γ) : Parser (α × β × γ) := fun i =>
  perm3Loop sepP p0 p1 p2 i 4 i none none none

/-- Modelled from the spec: nom's `many0!` (invoked by `sep!` at
src/whitespace.rs lines 805-807; its body is not under src/), per §4.7:
repeatedly apply the element parser, collecting successes until a
recoverable error ends the loop cleanly; any other error propagates; an
element success that consumes no input is rejected as fatal ("Infinite-loop
guard: any element parser that succeeds while consuming zero input must be
rejected by the repetition form (fatal condition) to guarantee
termination"), which also makes this definition terminate on every input. -/
def many0 {α : Type} (p : Parser α) (i : Input) : PResult (List α) :=
  match p i with
  | .error (.Error _) => .ok (i, [])
  | .error e => .error e
  | .ok (i2, o) =>
    if h : i2.data.length < i.data.length then
      match many0 p i2 with
      | .ok (i3, rest) => .ok (i3, o :: rest)
      | .error e => .error e
    else .error (.Failure (.Code i .Many0))
termination_by i.data.length
decreasing_by exact h

/-- Modelled from the spec: nom's `many1!` (invoked by `sep!` at
src/whitespace.rs lines 808-810; its body is not under src/), per §4.7:
at least one element is required (otherwise a recoverable error), then the
remaining elements are collected as in `many0`; the same zero-consumption
guard applies. -/
def many1 {α : Type} (p : Parser α) (i : Input) : PResult (List α) :=
  match p i with
  | .error (.Error _) => .error (.Error (.Code i .Many1))
  | .error e => .error e
  | .ok (i2, o) =>
    if i2.data.length < i.data.length then
      match many0 p i2 with
      | .ok (i3, rest) => .ok (i3, o :: rest)
      | .error e => .error e
    else .error (.Failure (.Code i .Many1))

/-- The `many0!` case of `sep!` (src/whitespace.rs lines 805-807): the
repetition applied to the `wrap_sep`-wrapped element parser. -/
def sep_many0 {σ α : Type} (sepP : Parser σ) (p : Parser α) : Parser (List α) :=
  many0 (wrap_sep sepP p)

/-- The `many1!` case of `sep!` (src/whitespace.rs lines 808-810). -/
def sep_many1 {σ α : Type} (sepP : Parser σ) (p : Parser α) : Parser (List α) :=
  many1 (wrap_sep sepP p)

/-- Modelled from the spec: the tail loop of the separated-list form
(§4.7), after the first element: a delimiter then an element, repeated;
"it stops cleanly (without error) the moment the delimiter or following
element fails recoverably, returning everything matched so far"; any
other error propagates; a delimiter-plus-element round that consumes no
input is rejected as fatal per §4.7's infinite-loop guard. -/
def sepListRest {δ α : Type} (delim : Parser δ) (elem : Parser α) (i : Input) : PResult (List α) :=
  match delim i with
  | .error (.Error _) => .ok (i, [])
  | .error e => .error e
  | .ok (i1, _) =>
    match elem i1 with
    | .error (.Error _) => .ok (i, [])
    | .error e => .error e
    | .ok (i2, o) =>
      if h : i2.data.length < i.data.length then
        match sepListRest delim elem i2 with
        | .ok (i3, rest) => .ok (i3, o :: rest)
        | .error e => .error e
      else .error (.Failure (.Code i .SeparatedList))
termination_by i.data.length
decreasing_by exact h

/-- Modelled from the spec: nom's `separated_list!` (delegated to by
`separated_list_sep!` at src/whitespace.rs lines 681-698; its body is not
under src/), per §4.7: "A separated-list form alternates element and
explicit delimiter sub-parsers ..., requiring at least one element and a
trailing delimiter-then-element pattern for each additional entry"; a
recoverable failure of the required first element is a recoverable
separated-list error at the starting cursor. -/
def separated_list {δ α : Type} (delim : Parser δ) (elem : Parser α) : Parser (List α) := fun i =>
  match elem i with
  | .error (.Error _) => .error (.Error (.Code i .SeparatedList))
  | .error e => .error e
  | .ok (i1, o) =>
    match sepListRest delim elem i1 with
    | .ok (i2, rest) => .ok (i2, o :: rest)
    | .error e => .error e

/-- `separated_list_sep!` (src/whitespace.rs lines 681-698): the
separated-list form applied to the `sep!`-wrapped delimiter and element
parsers. -/
def separated_list_sep {σ δ α : Type} (sepP : Parser σ) (delim : Parser δ) (elem : Parser α) :
    Parser (List α) :=
  separated_list (wrap_sep sepP delim) (wrap_sep sepP elem)

/-- Converts a string literal to the character-list view of inputs. -/
def strL (s : String) : List Char := s.toList

/-- Splitting a list that starts with separator characters followed by a
non-separator character: `takeWhile` keeps exactly the separator prefix
and `dropWhile` exposes the non-separator character. -/
theorem wsSplit (w : List Char) (hw : ∀ x ∈ w, isWsChar x = true) (ch : Char)
    (hch : isWsChar ch = false) (rs : List Char) :
    (w ++ ch :: rs).takeWhile isWsChar = w ∧ (w ++ ch :: rs).dropWhile isWsChar = ch :: rs := by
  induction w with
  | nil => simp [List.takeWhile, List.dropWhile, hch]
  | cons a as ih =>
    have ha : isWsChar a = true := hw a (by simp)
    have ihh := ih (fun x hx => hw x (by simp [hx]))
    simp [List.takeWhile_cons, List.dropWhile_cons, ha, ihh.1, ihh.2]

/-- On an input made of a separator prefix followed by a non-separator
character, `sp` consumes exactly the prefix (in both input modes). -/
theorem sp_shift (w : List Char) (hw : ∀ x ∈ w, isWsChar x = true) (ch : Char)
    (hch : isWsChar ch = false) (rs : List Char) (c : Bool) :
    sp ⟨w ++ ch :: rs, c⟩ = .ok (⟨ch :: rs, c⟩, w) := by
  obtain ⟨h1, h2⟩ := wsSplit w hw ch hch rs
  simp [sp, h1, h2]

/-- `wrap_sep sp` on such an input just runs the wrapped parser after the
separator prefix. -/
theorem wrapSep_sp_shift {α : Type} (p : Parser α) (w : List Char)
    (hw : ∀ x ∈ w, isWsChar x = true) (ch : Char) (hch : isWsChar ch = false)
    (rs : List Char) (c : Bool) :
    wrap_sep sp p ⟨w ++ ch :: rs, c⟩ = p ⟨ch :: rs, c⟩ := by
  simp [wrap_sep, sp_shift w hw ch hch rs c]

theorem cmpTag_append_self (t rs : List Char) : cmpTag (t ++ rs) t = .ok := by
  induction t with
  | nil => cases rs <;> simp [cmpTag]
  | cons a as ih => simp [cmpTag, ih]

/-- A tag succeeds on any input that starts with it, consuming exactly it. -/
theorem tag_ok (t rs : List Char) (c : Bool) : tagP t ⟨t ++ rs, c⟩ = .ok (⟨rs, c⟩, t) := by
  simp [tagP, cmpTag_append_self, List.drop_left, List.take_left]

/-- A tag fails recoverably when the first input character already differs
from the first tag character. -/
theorem tag_head_ne (a : Char) (ts : List Char) (b : Char) (xs : List Char) (c : Bool)
    (h : ¬ b = a) :
    tagP (a :: ts) ⟨b :: xs, c⟩ = .error (.Error (.Code ⟨b :: xs, c⟩ .Tag)) := by
  simp [tagP, cmpTag, h]

/-- The first token of the specification's permutation scenario. -/
def abcdT : List Char := ['a', 'b', 'c', 'd']

/-- The second token of the specification's permutation scenario. -/
def efgT : List Char := ['e', 'f', 'g']

/-- The third token of the specification's permutation scenario. -/
def hiT : List Char := ['h', 'i']

theorem tag_abcd_ok (rs : List Char) (c : Bool) :
    tagP abcdT ⟨'a' :: 'b' :: 'c' :: 'd' :: rs, c⟩ = .ok (⟨rs, c⟩, abcdT) := by
  simpa [abcdT] using tag_ok abcdT rs c

theorem tag_efg_ok (rs : List Char) (c : Bool) :
    tagP efgT ⟨'e' :: 'f' :: 'g' :: rs, c⟩ = .ok (⟨rs, c⟩, efgT) := by
  simpa [efgT] using tag_ok efgT rs c

theorem tag_hi_ok (rs : List Char) (c : Bool) :
    tagP hiT ⟨'h' :: 'i' :: rs, c⟩ = .ok (⟨rs, c⟩, hiT) := by
  simpa [hiT] using tag_ok hiT rs c

/-- A pass at a cursor whose next token is `abcd` (after separator text)
fills the first slot, whatever the state of the later slots. -/
theorem pass_A (r1 r2 : Option (List Char)) (w : List Char)
    (hw : ∀ x ∈ w, isWsChar x = true) (rs : List Char) (c : Bool) :
    permSlot0 sp (tagP abcdT) (tagP efgT) (tagP hiT)
        ⟨w ++ 'a' :: 'b' :: 'c' :: 'd' :: rs, c⟩ none r1 r2
      = .filled ⟨rs, c⟩ (some abcdT) r1 r2 := by
  have hsA := wrapSep_sp_shift (tagP abcdT) w hw 'a' (by decide) ('b' :: 'c' :: 'd' :: rs) c
  simp [permSlot0, hsA, tag_abcd_ok]

/-- A pass at a cursor whose next token is `efg` fills the second slot
when it is empty: the first slot either is already filled or fails
recoverably at the `e`. -/
theorem pass_E (r0 r2 : Option (List Char)) (w : List Char)
    (hw : ∀ x ∈ w, isWsChar x = true) (rs : List Char) (c : Bool) :
    permSlot0 sp (tagP abcdT) (tagP efgT) (tagP hiT)
        ⟨w ++ 'e' :: 'f' :: 'g' :: rs, c⟩ r0 none r2
      = .filled ⟨rs, c⟩ r0 (some efgT) r2 := by
  have hsA := wrapSep_sp_shift (tagP abcdT) w hw 'e' (by decide) ('f' :: 'g' :: rs) c
  have hsE := wrapSep_sp_shift (tagP efgT) w hw 'e' (by decide) ('f' :: 'g' :: rs) c
  have hA : tagP abcdT ⟨'e' :: 'f' :: 'g' :: rs, c⟩
      = .error (.Error (.Code ⟨'e' :: 'f' :: 'g' :: rs, c⟩ .Tag)) := by
    simpa [abcdT] using tag_head_ne 'a' ['b', 'c', 'd'] 'e' ('f' :: 'g' :: rs) c (by decide)
  cases r0 <;> simp [permSlot0, permSlot1, hsA, hsE, hA, tag_efg_ok]

/-- A pass at a cursor whose next token is `hi` fills the third slot when
it is empty: each earlier empty slot fails recoverably at the `h`. -/
theorem pass_H (r0 r1 : Option (List Char)) (w : List Char)
    (hw : ∀ x ∈ w, isWsChar x = true) (rs : List Char) (c : Bool) :
    permSlot0 sp (tagP abcdT) (tagP efgT) (tagP hiT)
        ⟨w ++ 'h' :: 'i' :: rs, c⟩ r0 r1 none
      = .filled ⟨rs, c⟩ r0 r1 (some hiT) := by
  have hsA := wrapSep_sp_shift (tagP abcdT) w hw 'h' (by decide) ('i' :: rs) c
  have hsE := wrapSep_sp_shift (tagP efgT) w hw 'h' (by decide) ('i' :: rs) c
  have hsH := wrapSep_sp_shift (tagP hiT) w hw 'h' (by decide) ('i' :: rs) c
  have hA : tagP abcdT ⟨'h' :: 'i' :: rs, c⟩
      = .error (.Error (.Code ⟨'h' :: 'i' :: rs, c⟩ .Tag)) := by
    simpa [abcdT] using tag_head_ne 'a' ['b', 'c', 'd'] 'h' ('i' :: rs) c (by decide)
  have hE : tagP efgT ⟨'h' :: 'i' :: rs, c⟩
      = .error (.Error (.Code ⟨'h' :: 'i' :: rs, c⟩ .Tag)) := by
    simpa [efgT] using tag_head_ne 'e' ['f', 'g'] 'h' ('i' :: rs) c (by decide)
  cases r0 <;> cases r1 <;>
    simp [permSlot0, permSlot1, permSlot2, hsA, hsE, hsH, hA, hE, tag_hi_ok]

/-- One loop iteration whose pass fills a slot continues the loop on the
new cursor and slot state. -/
theorem perm3Loop_step {σ α β γ : Type} {sepP : Parser σ} {p0 : Parser α} {p1 : Parser β}
    {p2 : Parser γ} {origI : Input} {fuel : Nat} {i : Input} {r0 : Option α} {r1 : Option β}
    {r2 : Option γ} {i' : Input} {r0' : Option α} {r1' : Option β} {r2' : Option γ}
    (h : permSlot0 sepP p0 p1 p2 i r0 r1 r2 = .filled i' r0' r1' r2') :
    perm3Loop sepP p0 p1 p2 origI (fuel + 1) i r0 r1 r2
      = perm3Loop sepP p0 p1 p2 origI fuel i' r0' r1' r2' := by
  simp [perm3Loop, h]

/-- When every slot is filled, the next pass stalls with `all_done` still
set and the loop returns success at the current cursor, reassembling the
outputs in declaration order. -/
theorem perm3Loop_allSome {σ α β γ : Type} (sepP : Parser σ) (p0 : Parser α) (p1 : Parser β)
    (p2 : Parser γ) (origI : Input) (fuel : Nat) (i : Input) (a : α) (b : β) (c3 : γ) :
    perm3Loop sepP p0 p1 p2 origI (fuel + 1) i (some a) (some b) (some c3)
      = .ok (i, (a, b, c3)) := by
  simp [perm3Loop, permSlot0, permSlot1, permSlot2]

theorem abcdT_append (xs : List Char) : abcdT ++ xs = 'a' :: 'b' :: 'c' :: 'd' :: xs := rfl

theorem efgT_append (xs : List Char) : efgT ++ xs = 'e' :: 'f' :: 'g' :: xs := rfl

theorem hiT_append (xs : List Char) : hiT ++ xs = 'h' :: 'i' :: xs := rfl

/-- C2: for the permutation of the three distinct token parsers
`tag!("abcd")`, `tag!("efg")`, `tag!("hi")` and every input that contains
the three tokens exactly once, in any of the six orders, with
separator-matched text before and between them, the separator-transformed
permutation succeeds and returns the captured values assembled in
declaration order — the output tuple `(abcd, efg, hi)` is identical for
every ordering of the tokens in the input (in both input modes, with an
arbitrary trailing remainder). -/
theorem C2_permutation_order_independence
    (w0 w1 w2 rest : List Char)
    (h0 : ∀ x ∈ w0, isWsChar x = true) (h1 : ∀ x ∈ w1, isWsChar x = true)
    (h2 : ∀ x ∈ w2, isWsChar x = true)
    (t1 t2 t3 : List Char)
    (hperm : (t1, t2, t3) ∈ [(abcdT, efgT, hiT), (abcdT, hiT, efgT), (efgT, abcdT, hiT),
      (efgT, hiT, abcdT), (hiT, abcdT, efgT), (hiT, efgT, abcdT)])
    (c : Bool) :
    permutation_sep sp (tagP abcdT) (tagP efgT) (tagP hiT)
        ⟨w0 ++ t1 ++ w1 ++ t2 ++ w2 ++ t3 ++ rest, c⟩
      = .ok (⟨rest, c⟩, (abcdT, efgT, hiT)) := by
  simp only [List.mem_cons, List.not_mem_nil, or_false] at hperm
  rcases hperm with h | h | h | h | h | h <;>
      (injection h with e1 h; injection h with e2 e3; subst e1; subst e2; subst e3) <;>
      simp only [permutation_sep, List.append_assoc, List.cons_append, abcdT_append, efgT_append,
        hiT_append]
  · rw [(rfl : (4 : Nat) = 3 + 1), perm3Loop_step (pass_A none none w0 h0 _ c)]
    rw [(rfl : (3 : Nat) = 2 + 1), perm3Loop_step (pass_E (some abcdT) none w1 h1 _ c)]
    rw [(rfl : (2 : Nat) = 1 + 1), perm3Loop_step (pass_H (some abcdT) (some efgT) w2 h2 rest c)]
    exact perm3Loop_allSome sp (tagP abcdT) (tagP efgT) (tagP hiT) _ 0 ⟨rest, c⟩ abcdT efgT hiT
  · rw [(rfl : (4 : Nat) = 3 + 1), perm3Loop_step (pass_A none none w0 h0 _ c)]
    rw [(rfl : (3 : Nat) = 2 + 1), perm3Loop_step (pass_H (some abcdT) none w1 h1 _ c)]
    rw [(rfl : (2 : Nat) = 1 + 1), perm3Loop_step (pass_E (some abcdT) (some hiT) w2 h2 rest c)]
    exact perm3Loop_allSome sp (tagP abcdT) (tagP efgT) (tagP hiT) _ 0 ⟨rest, c⟩ abcdT efgT hiT
  · rw [(rfl : (4 : Nat) = 3 + 1), perm3Loop_step (pass_E none none w0 h0 _ c)]
    rw [(rfl : (3 : Nat) = 2 + 1), perm3Loop_step (pass_A (some efgT) none w1 h1 _ c)]
    rw [(rfl : (2 : Nat) = 1 + 1), perm3Loop_step (pass_H (some abcdT) (some efgT) w2 h2 rest c)]
    exact perm3Loop_allSome sp (tagP abcdT) (tagP efgT) (tagP hiT) _ 0 ⟨rest, c⟩ abcdT efgT hiT
  · rw [(rfl : (4 : Nat) = 3 + 1), perm3Loop_step (pass_E none none w0 h0 _ c)]
    rw [(rfl : (3 : Nat) = 2 + 1), perm3Loop_step (pass_H none (some efgT) w1 h1 _ c)]
    rw [(rfl : (2 : Nat) = 1 + 1), perm3Loop_step (pass_A (some efgT) (some hiT) w2 h2 rest c)]
    exact perm3Loop_allSome sp (tagP abcdT) (tagP efgT) (tagP hiT) _ 0 ⟨rest, c⟩ abcdT efgT hiT
  · rw [(rfl : (4 : Nat) = 3 + 1), perm3Loop_step (pass_H none none w0 h0 _ c)]
    rw [(rfl : (3 : Nat) = 2 + 1), perm3Loop_step (pass_A none (some hiT) w1 h1 _ c)]
    rw [(rfl : (2 : Nat) = 1 + 1), perm3Loop_step (pass_E (some abcdT) (some hiT) w2 h2 rest c)]
    exact perm3Loop_allSome sp (tagP abcdT) (tagP efgT) (tagP hiT) _ 0 ⟨rest, c⟩ abcdT efgT hiT
  · rw [(rfl : (4 : Nat) = 3 + 1), perm3Loop_step (pass_H none none w0 h0 _ c)]
    rw [(rfl : (3 : Nat) = 2 + 1), perm3Loop_step (pass_E none (some hiT) w1 h1 _ c)]
    rw [(rfl : (2 : Nat) = 1 + 1), perm3Loop_step (pass_A (some efgT) (some hiT) w2 h2 rest c)]
    exact perm3Loop_allSome sp (tagP abcdT) (tagP efgT) (tagP hiT) _ 0 ⟨rest, c⟩ abcdT efgT hiT

/-- C2 witness: the specification's concrete scenario, input
`"  efg  \tabcdhi jk"` (match order efg, abcd, hi): success with the
output assembled in declaration order. -/
theorem C2_witness :
    permutation_sep sp (tagP abcdT) (tagP efgT) (tagP hiT)
        ⟨strL "  efg  \tabcdhi jk", false⟩
      = .ok (⟨strL " jk", false⟩, (abcdT, efgT, hiT)) :=
  C2_permutation_order_independence [' ', ' '] [' ', ' ', '\t'] [] (strL " jk")
    (by decide) (by decide) (by decide) efgT abcdT hiT (by decide) false

/-- C1 (amended): the separator wrapper first runs the separator on the
input; whenever the separator succeeds, the wrapper runs the inner parser
on the cursor the separator left and its result is exactly the inner
parser's outcome; whenever the separator errs, the wrapper returns that
(converted) error without running the inner parser; and on a complete
input the separator `sp` does always succeed, consuming the maximal
separator prefix. -/
theorem C1_wrap_sep_contract {α : Type} (f : Parser α) (i : Input) :
    (∀ i1 w, sp i = .ok (i1, w) → wrap_sep sp f i = f i1)
    ∧ (∀ e, sp i = .error e → wrap_sep sp f i = .error e)
    ∧ (i.complete = true →
        sp i = .ok (⟨i.data.dropWhile isWsChar, i.complete⟩, i.data.takeWhile isWsChar)) := by
  refine ⟨?_, ?_, ?_⟩
  · intro i1 w h; simp [wrap_sep, h]
  · intro e h; simp [wrap_sep, h]
  · intro hc; simp [sp, hc]

/-- C1 witness: on `" a"` the wrapper behaves as separator-then-inner. -/
theorem C1_witness :
    wrap_sep sp (tagP ['a']) ⟨[' ', 'a'], false⟩ = tagP ['a'] ⟨['a'], false⟩ :=
  (C1_wrap_sep_contract (tagP ['a']) ⟨[' ', 'a'], false⟩).1 ⟨['a'], false⟩ [' '] (by decide)

/-- C1 counterexample: the repository's separator `sp` does not always
return success — on the streaming input `" "`, made entirely of separator
characters, it returns `Incomplete`, the wrapper propagates that error,
and the inner parser (`take!(0)`, which succeeds on everything) is never
run, so the wrapper's result is not the inner parser's outcome. -/
theorem C1_counterexample :
    sp ⟨[' '], false⟩ = .error (.Incomplete 1)
    ∧ wrap_sep sp (takeP 0) ⟨[' '], false⟩ = .error (.Incomplete 1)
    ∧ takeP 0 ⟨[], false⟩ = .ok (⟨[], false⟩, []) := by
  refine ⟨by decide, by decide, by decide⟩

/-- C3 (amended): when a pass of the separator-transformed permutation
stalls (fills no slot, with `all_done` cleared by a recoverable
sub-failure) while at least one slot is still unfilled, the loop returns
`Recoverable` whose context is a permutation-level error at the cursor the
stalled pass ran at, nested under a permutation-level error at the
original starting position — not the last sub-parser's own failure. -/
theorem C3_permutation_error_context {σ α β γ : Type} (sepP : Parser σ) (p0 : Parser α)
    (p1 : Parser β) (p2 : Parser γ) (origI cur : Input) (fuel : Nat)
    (r0 : Option α) (r1 : Option β) (r2 : Option γ)
    (hstall : permSlot0 sepP p0 p1 p2 cur r0 r1 r2 = .stalled false)
    (hunfilled : r0 = none ∨ r1 = none ∨ r2 = none) :
    perm3Loop sepP p0 p1 p2 origI (fuel + 1) cur r0 r1 r2
      = .error (.Error (.Node origI .Permutation (.Code cur .Permutation))) := by
  cases r0 <;> cases r1 <;> cases r2 <;> simp_all [perm3Loop, hstall]

/-- C3 witness: the stalled state reached on the specification's failing
scenario input `"efg  xyzabcdefghi"` after `efg` has been matched. -/
theorem C3_witness :
    perm3Loop sp (tagP abcdT) (tagP efgT) (tagP hiT) ⟨strL "efg  xyzabcdefghi", false⟩ 1
        ⟨strL "  xyzabcdefghi", false⟩ none (some efgT) none
      = .error (.Error (.Node ⟨strL "efg  xyzabcdefghi", false⟩ .Permutation
          (.Code ⟨strL "  xyzabcdefghi", false⟩ .Permutation))) :=
  C3_permutation_error_context sp (tagP abcdT) (tagP efgT) (tagP hiT)
    ⟨strL "efg  xyzabcdefghi", false⟩ ⟨strL "  xyzabcdefghi", false⟩ 0
    none (some efgT) none rfl (Or.inl rfl)

/-- C3 counterexample: on the scenario input `"efg  xyzabcdefghi"` the
permutation's recoverable error nests a permutation-kind error at the
stalled pass's cursor `"  xyzabcdefghi"` (matching the in-repo test at
whitespace.rs lines 1030-1038), while the last recoverable sub-parser
failure of that run — the third slot's, produced by the separator-wrapped
`tag!("hi")` — is a tag-kind error at `"xyzabcdefghi"`; the claim's
predicted nesting of that sub-failure does not hold. -/
theorem C3_counterexample :
    permutation_sep sp (tagP abcdT) (tagP efgT) (tagP hiT) ⟨strL "efg  xyzabcdefghi", false⟩
        = .error (.Error (.Node ⟨strL "efg  xyzabcdefghi", false⟩ .Permutation
            (.Code ⟨strL "  xyzabcdefghi", false⟩ .Permutation)))
    ∧ wrap_sep sp (tagP hiT) ⟨strL "  xyzabcdefghi", false⟩
        = .error (.Error (.Code ⟨strL "xyzabcdefghi", false⟩ .Tag))
    ∧ permutation_sep sp (tagP abcdT) (tagP efgT) (tagP hiT) ⟨strL "efg  xyzabcdefghi", false⟩
        ≠ .error (.Error (.Node ⟨strL "efg  xyzabcdefghi", false⟩ .Permutation
            (.Code ⟨strL "xyzabcdefghi", false⟩ .Tag))) := by
  refine ⟨by decide, by decide, by decide⟩

/-- C4: if every branch of the separator-transformed alternation fails
recoverably on the shared starting cursor, the alternation returns a
single recoverable error tagged at its starting position. -/
theorem C4_alt_error_at_start {α : Type} (p q : Parser α) (i : Input) (e1 e2 : Context)
    (hp : wrap_sep sp p i = .error (.Error e1))
    (hq : wrap_sep sp q i = .error (.Error e2)) :
    alt_sep sp p q i = .error (.Error (.Code i .Alt)) := by
  simp [alt_sep, hp, hq]

/-- C4 witness: both `tag!("ab")` and `tag!("cd")` fail recoverably on
`"xy"`, and the alternation error is tagged at the original input. -/
theorem C4_witness :
    alt_sep sp (tagP ['a', 'b']) (tagP ['c', 'd']) ⟨['x', 'y'], false⟩
      = .error (.Error (.Code ⟨['x', 'y'], false⟩ .Alt)) :=
  C4_alt_error_at_start (tagP ['a', 'b']) (tagP ['c', 'd']) ⟨['x', 'y'], false⟩
    (.Code ⟨['x', 'y'], false⟩ .Tag) (.Code ⟨['x', 'y'], false⟩ .Tag) (by decide) (by decide)

/-- C5: in the separator-transformed (streaming) alternation, a branch
that returns `Incomplete` or `Fatal` short-circuits: that outcome is
returned at once, whatever the later branch would do. -/
theorem C5_alt_short_circuit {α : Type} (p q : Parser α) (i : Input) :
    (∀ n, wrap_sep sp p i = .error (.Incomplete n) → alt_sep sp p q i = .error (.Incomplete n))
    ∧ (∀ e, wrap_sep sp p i = .error (.Failure e) → alt_sep sp p q i = .error (.Failure e)) := by
  constructor
  · intro n h; simp [alt_sep, h]
  · intro e h; simp [alt_sep, h]

/-- C5 witness: branch A = `tag!("abcd")` is `Incomplete` on the streaming
input `"ab"` while branch B = `tag!("ab")` would succeed on it; the
alternation returns `Incomplete`, never B's success. -/
theorem C5_witness :
    wrap_sep sp (tagP ['a', 'b']) ⟨['a', 'b'], false⟩ = .ok (⟨[], false⟩, ['a', 'b'])
    ∧ alt_sep sp (tagP abcdT) (tagP ['a', 'b']) ⟨['a', 'b'], false⟩
        = .error (.Incomplete 4) :=
  ⟨by decide, (C5_alt_short_circuit (tagP abcdT) (tagP ['a', 'b']) ⟨['a', 'b'], false⟩).1
    4 (by decide)⟩

/-- C6: if the separator-transformed switch's selector succeeds but its
value matches none of the declared patterns, the switch returns a
recoverable error tagged at the switch's starting position — which, when
the selector consumed input, differs from the cursor the selector left. -/
theorem C6_switch_no_pattern {κ α : Type} [DecidableEq κ] (sel : Parser κ)
    (branches : List (κ × Parser α)) (i i1 : Input) (o : κ)
    (hsel : wrap_sep sp sel i = .ok (i1, o))
    (hnone : branches.find? (fun b => b.fst = o) = none) :
    switch_sep sp sel branches i = .error (.Error (.Code i .Switch))
    ∧ (i1 ≠ i → Context.Code i ErrorKind.Switch ≠ Context.Code i1 ErrorKind.Switch) := by
  constructor
  · simp [switch_sep, hsel, hnone]
  · intro hne heq
    injection heq with h1 h2
    exact hne h1.symm

/-- C6 witness: the in-repo switch scenario on complete input
`"afghijkl"`: the selector `take!(4)` consumes `"afgh"`, no pattern
matches, and the error is tagged at the original input, not at `"ijkl"`. -/
theorem C6_witness :
    switch_sep sp (takeP 4) [(strL "abcd", takeP 2), (strL "efgh", takeP 4)]
        ⟨strL "afghijkl", true⟩
      = .error (.Error (.Code ⟨strL "afghijkl", true⟩ .Switch)) :=
  (C6_switch_no_pattern (takeP 4) [(strL "abcd", takeP 2), (strL "efgh", takeP 4)]
    ⟨strL "afghijkl", true⟩ ⟨strL "ijkl", true⟩ (strL "afgh") (by decide) (by rfl)).1

/-- C7: the whitespace-transformed sequence `take!(3)` then `tag!("de")`
on the streaming input `" \t abc de fg"` succeeds with remaining `"fg"`
and output `("abc", "de")` (the doc-test of src/whitespace.rs lines
854-866). -/
theorem C7_ws_tuple_scenario :
    ws (tuple_sep sp (takeP 3) (tagP (strL "de"))) ⟨strL " \t abc de fg", false⟩
      = .ok (⟨strL "fg", false⟩, (strL "abc", strL "de")) := by decide

/-- C8: the separator-transformed separated-list form requires at least
one element: whenever the first separator-wrapped element attempt fails
recoverably, it returns a recoverable error — never success with an empty
list. -/
theorem C8_separated_list_requires_element {δ α : Type} (d : Parser δ) (p : Parser α)
    (i : Input) (e : Context) (h : wrap_sep sp p i = .error (.Error e)) :
    separated_list_sep sp d p i = .error (.Error (.Code i .SeparatedList)) := by
  simp [separated_list_sep, separated_list, h]

/-- C8 witness: with delimiter `tag!(",")` and element `tag!("abcd")` on
`"def"`, the first element fails recoverably and the list form errs. -/
theorem C8_witness :
    separated_list_sep sp (tagP [',']) (tagP abcdT) ⟨strL "def", true⟩
      = .error (.Error (.Code ⟨strL "def", true⟩ .SeparatedList)) :=
  C8_separated_list_requires_element (tagP [',']) (tagP abcdT) ⟨strL "def", true⟩
    (.Code ⟨strL "def", true⟩ .Tag) (by decide)

/-- C9: inside the separator-transformed `many0`/`many1` repetition, an
element invocation that succeeds while consuming zero input is rejected
with a fatal outcome (and the repetition functions are total, so the
repetition terminates on every input). -/
theorem C9_repetition_zero_consumption_guard {α : Type} (p : Parser α) (i i' : Input) (o : α)
    (hsucc : wrap_sep sp p i = .ok (i', o))
    (hzero : i'.data.length = i.data.length) :
    sep_many0 sp p i = .error (.Failure (.Code i .Many0))
    ∧ sep_many1 sp p i = .error (.Failure (.Code i .Many1)) := by
  have hlt : ¬ i'.data.length < i.data.length := by omega
  constructor
  · rw [sep_many0, many0, hsucc]
    simp [hlt]
  · rw [sep_many1, many1, hsucc]
    simp [hlt]

/-- C9 witness: an element parser that succeeds without consuming is
rejected fatally by both repetition forms on input `"x"`. -/
theorem C9_witness :
    sep_many0 sp (fun j => .ok (j, (0 : Nat))) ⟨['x'], true⟩
        = .error (.Failure (.Code ⟨['x'], true⟩ .Many0))
    ∧ sep_many1 sp (fun j => .ok (j, (0 : Nat))) ⟨['x'], true⟩
        = .error (.Failure (.Code ⟨['x'], true⟩ .Many1)) :=
  C9_repetition_zero_consumption_guard (fun j => .ok (j, (0 : Nat))) ⟨['x'], true⟩
    ⟨['x'], true⟩ 0 (by decide) rfl

/-- A list made entirely of separator characters is dropped whole by
`dropWhile`. -/
theorem dropWhile_ws_nil (l : List Char) (h : ∀ x ∈ l, isWsChar x = true) :
    l.dropWhile isWsChar = [] := by
  induction l with
  | nil => rfl
  | cons a as ih =>
    simp [List.dropWhile_cons, h a (by simp), ih (fun x hx => h x (by simp [hx]))]

/-- C10: whenever the separator-rewritten inner parser succeeds on a
streaming input leaving remaining input that is empty or consists
entirely of separator characters, the top-level whitespace wrapper
returns `Incomplete` from its trailing separator consumption, never
success. -/
theorem C10_ws_trailing_incomplete {α : Type} (g : Parser α) (i i1 : Input) (o : α)
    (hg : g i = .ok (i1, o)) (hstream : i1.complete = false)
    (hws : ∀ x ∈ i1.data, isWsChar x = true) :
    ws g i = .error (.Incomplete 1) := by
  have hd : i1.data.dropWhile isWsChar = [] := dropWhile_ws_nil i1.data hws
  simp [ws, hg, sp, hd, hstream]

/-- C10 witness: `ws!(tag!("ab"))` on the streaming input `"ab "` (ending
inside trailing whitespace) returns `Incomplete`, not success. -/
theorem C10_witness :
    ws (wrap_sep sp (tagP ['a', 'b'])) ⟨['a', 'b', ' '], false⟩ = .error (.Incomplete 1) :=
  C10_ws_trailing_incomplete (wrap_sep sp (tagP ['a', 'b'])) ⟨['a', 'b', ' '], false⟩
    ⟨[' '], false⟩ ['a', 'b'] (by decide) rfl (by decide)

end NomWs
